import Mathlib

/-!
Verification of the answer-generation orchestration layer of the
retrieval-augmented QA backend (`src/backend/src/services/openai_service.py`).

The Python module is shallowly embedded below:
* dict-shaped retrieved chunks become the `Chunk` structure with optional
  fields (a missing dict key is `none`, and the `.get(key, default)` calls
  of the source become the `Chunk.chapterId` / `Chunk.sectionTitle` /
  `Chunk.fullText` accessors);
* `_build_context` becomes `build_context` (the `enumerate(chunks, 1)` loop
  becomes `buildParts`, and `"\n---\n".join` becomes `joinSep`);
* the user-message construction inside `generate_answer` (lines 119-139)
  becomes `build_user_message`; the `mode` argument is received and, as in
  the source, not read while building the message;
* the upstream agent run is abstracted as an oracle `up : String → Outcome`
  mapping the submitted user message to the upstream result: `success` for
  a returned `final_output`, `failure` for any raised exception;
* `result.final_output.strip()` becomes `pyStrip` (Python `str.strip` over
  the ASCII whitespace characters);
* `_get_fallback_response` becomes `get_fallback_response`;
* the module-level lazy singleton `_service_instance` / `get_service`
  becomes an explicit state-passing `get_service`, with `os.environ.get`
  modelled as an extra `env` argument and Python's `or` truthiness on the
  api key modelled by `pyOrStr`.
-/

set_option maxRecDepth 8000

namespace QAService

/-- One retrieved chunk record, as the Python service receives it: a dict
whose `chapter_id`, `section_title` and `full_text` keys may be absent. -/
structure Chunk where
  chapter_id : Option String
  section_title : Option String
  full_text : Option String
  deriving DecidableEq, Repr

/-- The source's `chunk.get("chapter_id", "?")`. -/
def Chunk.chapterId (c : Chunk) : String := c.chapter_id.getD "?"

/-- The source's `chunk.get("section_title", "Unknown Section")`. -/
def Chunk.sectionTitle (c : Chunk) : String := c.section_title.getD "Unknown Section"

/-- The source's `chunk.get("full_text", "")`. -/
def Chunk.fullText (c : Chunk) : String := c.full_text.getD ""

/-- Python's `sep.join(parts)`. -/
def joinSep (sep : String) : List String → String
  | [] => ""
  | [s] => s
  | s :: ss => s ++ sep ++ joinSep sep ss

/-- The labeled block emitted for one chunk by `_build_context`:
`f"[Chunk {i}] Chapter {chapter_id}, Section: {section_title}\n{full_text}\n"`. -/
def chunkBlock (i : Nat) (c : Chunk) : String :=
  "[Chunk " ++ toString i ++ "] Chapter " ++ c.chapterId ++ ", Section: "
    ++ c.sectionTitle ++ "\n" ++ c.fullText ++ "\n"

/-- The `for i, chunk in enumerate(chunks, 1)` loop of `_build_context`,
accumulating `context_parts`. -/
def buildParts : List Chunk → Nat → List String
  | [], _ => []
  | c :: rest, i => chunkBlock i c :: buildParts rest (i + 1)

/-- `_build_context`: empty input yields `""`, otherwise the labeled blocks
joined with `"\n---\n"`. -/
def build_context (chunks : List Chunk) : String :=
  if chunks.isEmpty then "" else joinSep "\n---\n" (buildParts chunks 1)

/-- The instruction tail of the user message when context is present
(from the f-string at lines 120-131 of the source). -/
def ctx_instructions : String :=
  "\n\nInstructions:\n- Answer the question using the provided context as your primary source\n- Cite the relevant chapter/section in your answer\n- Use clear, educational language\n- Structure your answer with bullet points or numbered lists if appropriate\n- Keep answer concise but thorough\n- If the context doesn\x27t fully answer the question, supplement with your knowledge"

/-- The tail of the user message when no context is present
(from the f-string at lines 133-139 of the source). -/
def no_ctx_tail : String :=
  "\n\nInstructions:\n- Answer based on your knowledge of Physical AI, robotics, ROS 2, simulation, and VLA systems\n- Use clear, educational language\n- Structure your answer appropriately\n- Be helpful and thorough"

/-- The user message `generate_answer` builds (lines 116-139): the source
receives `mode` but does not read it while building the message. -/
def build_user_message (question : String) (chunks : List Chunk) (mode : String) : String :=
  let context_text := build_context chunks
  if context_text = "" then
    "Question: " ++ question ++ no_ctx_tail
  else
    "Question: " ++ question ++ "\n\nContext from textbook:\n" ++ context_text
      ++ ctx_instructions

/-- Result of one upstream agent run: `success` carries `final_output`,
`failure` carries the message of the raised exception. -/
inductive Outcome where
  | success (text : String)
  | failure (err : String)
  deriving DecidableEq, Repr

/-- Python `str.strip` whitespace test (ASCII whitespace characters). -/
def pyWs (c : Char) : Bool :=
  c == ' ' || c == '\t' || c == '\n' || c == '\r' || c == '\x0B' || c == '\x0C'

/-- Python `str.strip()`: drop leading and trailing whitespace. -/
def pyStrip (s : String) : String :=
  String.mk (((s.data.dropWhile pyWs).reverse.dropWhile pyWs).reverse)

/-- Opening of the fallback text used when context was provided. -/
def fb_ctx_pre : String :=
  "Based on the textbook content you provided, I can see this relates to your question about \""

/-- Remainder of the fallback text used when context was provided. -/
def fb_ctx_post : String :=
  "\".\n\nThe context discusses important concepts in Physical AI and robotics. For more detailed information, I recommend referring to the specific sections in the textbook that cover this topic.\n\nPlease try your question again - I\x27m here to help you learn!"

/-- Opening of the fallback text used when no context was provided. -/
def fb_noctx_pre : String :=
  "I\x27d be happy to help answer your question about \""

/-- Remainder of the fallback text used when no context was provided. -/
def fb_noctx_post : String :=
  "\".\n\nAs an educational assistant for Physical AI & Humanoid Robotics, I can help you understand topics like:\n- Physical AI and embodied intelligence\n- Humanoid robot design and components\n- ROS 2 architecture and tools\n- Digital twin simulation\n- Vision-Language-Action (VLA) systems\n\nPlease try again, and I\x27ll do my best to provide a helpful answer!"

/-- `_get_fallback_response(question, context)`. -/
def get_fallback_response (question context : String) : String :=
  if context = "" then
    fb_noctx_pre ++ question ++ fb_noctx_post
  else
    fb_ctx_pre ++ question ++ fb_ctx_post

/-- `generate_answer`: build the context and user message, submit the message
to the upstream oracle; on success return the stripped output, on any raised
exception return the fallback response for the question and context. -/
def generate_answer (question : String) (chunks : List Chunk) (mode : String)
    (up : String → Outcome) : String :=
  match up (build_user_message question chunks mode) with
  | .success t => pyStrip t
  | .failure _ => get_fallback_response question (build_context chunks)

/-- The constant system instructions of `_create_agent` (lines 65-86). -/
def agent_instructions : String :=
  "You are an educational AI assistant for the \"Physical AI & Humanoid Robotics\" textbook.\n\nYour role is to help learners understand textbook content by answering questions accurately and clearly.\n\nCRITICAL RULES:\n1. Answer primarily from the provided textbook context when available\n2. If context is limited or empty, you may use your general knowledge to help the learner\n3. Always be helpful - if you don\x27t know something, explain what you DO know related to the topic\n4. Use clear, educational language appropriate for learners\n5. Structure answers with bullet points or numbered lists when appropriate\n6. Keep answers concise but thorough enough to be educational\n7. Maintain a helpful, patient, encouraging tone\n\nWhen context is provided:\n- Use it as the primary source for your answer\n- Cite the relevant chapter/section in your response\n\nWhen no context is provided:\n- Answer based on your knowledge of Physical AI, robotics, ROS 2, simulation, and VLA systems\n- Still be helpful and educational\n\nRemember: Your goal is to help learners succeed. Always provide a useful, accurate response."

/-- Does `sub` start the list `s`? -/
def startsWithL : List Char → List Char → Bool
  | [], _ => true
  | _ :: _, [] => false
  | a :: as, b :: bs => a == b && startsWithL as bs

/-- Does `sub` occur contiguously inside `s`? -/
def hasSubL (sub : List Char) : List Char → Bool
  | [] => startsWithL sub []
  | c :: rest => startsWithL sub (c :: rest) || hasSubL sub rest

/-- Substring occurrence on strings. -/
def strHasSub (s sub : String) : Bool := hasSubL sub.data s.data

/-- Python's `a or b` for the api-key strings: `None` and `""` are falsy. -/
def pyOrStr (a b : Option String) : Option String :=
  match a with
  | none => b
  | some s => if s = "" then b else some s

/-- Configuration held by one `OpenRouterService` instance (the fields the
constructor stores; the network client and agent are determined by them). -/
structure OpenRouterService where
  api_key : Option String
  model : String
  temperature : Rat
  max_tokens : Nat
  deriving DecidableEq, Repr

/-- The `OpenRouterService.__init__` defaults: `api_key or
os.environ.get("OPENROUTER_API_KEY")` with `env` the environment lookup,
model `google-gemini-2.5-flash`, temperature 0.3, max_tokens 800. -/
def OpenRouterService.ofKey (api_key env : Option String) : OpenRouterService :=
  { api_key := pyOrStr api_key env
    model := "google-gemini-2.5-flash"
    temperature := 3 / 10
    max_tokens := 800 }

/-- `get_service`: the module-level lazy singleton, with the mutable global
`_service_instance` passed and returned explicitly. -/
def get_service (inst : Option OpenRouterService) (api_key env : Option String) :
    OpenRouterService × Option OpenRouterService :=
  match inst with
  | some s => (s, some s)
  | none =>
    let s := OpenRouterService.ofKey api_key env
    (s, some s)

/-- A sequential sequence of `get_service` calls with the given api-key
arguments, threading the global instance state; returns the list of returned
instances and the final state. -/
def runCalls (env : Option String) :
    Option OpenRouterService → List (Option String) →
      List OpenRouterService × Option OpenRouterService
  | st, [] => ([], st)
  | st, k :: ks =>
    let r := get_service st k env
    let rest := runCalls env r.2 ks
    (r.1 :: rest.1, rest.2)

/-- Modelled from the spec: the strict-grounding provider variant (the
direct-completion provider of spec §4.3/§4.4) is not among the source files
under `src/`; per spec §4.4 and §7 it propagates an upstream failure to its
caller unchanged instead of synthesizing a fallback, and on success returns
the generated text (post-processing only trims surrounding whitespace,
spec §8). -/
def strict_generate_answer (question : String) (chunks : List Chunk) (mode : String)
    (up : String → Outcome) : Except String String :=
  match up (build_user_message question chunks mode) with
  | .success t => Except.ok (pyStrip t)
  | .failure e => Except.error e

/-! ## Helper lemmas -/

theorem strAppendAssoc (a b c : String) : a ++ b ++ c = a ++ (b ++ c) := by
  apply String.ext
  simp [String.data_append, List.append_assoc]

theorem startsWithL_self_append (sub v : List Char) :
    startsWithL sub (sub ++ v) = true := by
  induction sub with
  | nil => rfl
  | cons a as ih => simp [startsWithL, ih]

theorem hasSubL_self_append (sub v : List Char) :
    hasSubL sub (sub ++ v) = true := by
  cases sub with
  | nil =>
    cases v with
    | nil => rfl
    | cons c cs => simp [hasSubL, startsWithL]
  | cons a as =>
    simp only [List.cons_append, hasSubL, Bool.or_eq_true]
    exact Or.inl (startsWithL_self_append (a :: as) v)

theorem hasSubL_append_left (u : List Char) {sub s : List Char}
    (h : hasSubL sub s = true) : hasSubL sub (u ++ s) = true := by
  induction u with
  | nil => simpa using h
  | cons c cs ih =>
    simp only [List.cons_append, hasSubL, Bool.or_eq_true]
    exact Or.inr ih

theorem strHasSub_intro (s u t v : String) (h : s = u ++ (t ++ v)) :
    strHasSub s t = true := by
  subst h
  show hasSubL t.data (u ++ (t ++ v)).data = true
  rw [String.data_append, String.data_append]
  exact hasSubL_append_left u.data (hasSubL_self_append t.data v.data)

theorem runCalls_some (env : Option String) (s : OpenRouterService)
    (ks : List (Option String)) :
    runCalls env (some s) ks = (List.replicate ks.length s, some s) := by
  induction ks with
  | nil => rfl
  | cons k ks ih => simp [runCalls, get_service, ih, List.replicate]

theorem strAppendEmpty (b : String) : b ++ "" = b := by
  apply String.ext
  simp [String.data_append]

theorem strLenAppend (a b : String) : (a ++ b).length = a.length + b.length := by
  show (a ++ b).data.length = a.data.length + b.data.length
  rw [String.data_append, List.length_append]

theorem buildParts_length (chunks : List Chunk) (n : Nat) :
    (buildParts chunks n).length = chunks.length := by
  induction chunks generalizing n with
  | nil => rfl
  | cons c cs ih => simp [buildParts, ih]

theorem buildParts_getElem? (chunks : List Chunk) (n i : Nat) :
    (buildParts chunks n)[i]? = (chunks[i]?).map (fun c => chunkBlock (i + n) c) := by
  induction chunks generalizing n i with
  | nil => simp [buildParts]
  | cons c cs ih =>
    cases i with
    | zero => simp [buildParts]
    | succ j =>
      have hn : j + (n + 1) = j + 1 + n := by omega
      simp only [buildParts, List.getElem?_cons_succ, ih (n + 1) j, hn]

theorem joinSep_cons (sep b : String) (ps : List String) :
    ∃ t : String, joinSep sep (b :: ps) = b ++ t := by
  cases ps with
  | nil => exact ⟨"", (strAppendEmpty b).symm⟩
  | cons p ps => exact ⟨sep ++ joinSep sep (p :: ps), strAppendAssoc b sep _⟩

theorem build_context_cons (c : Chunk) (rest : List Chunk) :
    ∃ t : String, build_context (c :: rest) =
      "[Chunk " ++ (toString 1 ++ ("] Chapter " ++ (c.chapterId ++ t))) := by
  obtain ⟨t0, h0⟩ := joinSep_cons "\n---\n" (chunkBlock 1 c) (buildParts rest 2)
  refine ⟨", Section: " ++ (c.sectionTitle ++ ("\n" ++ (c.fullText ++ ("\n" ++ t0)))), ?_⟩
  have hb : build_context (c :: rest) = chunkBlock 1 c ++ t0 := by
    simpa [build_context, buildParts] using h0
  rw [hb, chunkBlock]
  simp [strAppendAssoc]

theorem build_context_cons_ne_empty (c : Chunk) (rest : List Chunk) :
    ¬ build_context (c :: rest) = "" := by
  obtain ⟨t, ht⟩ := build_context_cons c rest
  intro he
  have hd := congrArg String.data (ht.symm.trans he)
  rw [String.data_append] at hd
  have hd2 : ("[Chunk " : String).data ++
      (toString 1 ++ ("] Chapter " ++ (c.chapterId ++ t))).data = [] := hd
  exact absurd (List.append_eq_nil.mp hd2).1 (by decide)

/-! ## Claims -/

/-- Claim C2: for every question, fragment list and mode, if the upstream
invocation raises, `generate_answer` returns exactly the fallback responder's
output for that question and serialized context; no exception propagates
(the embedded function is total and returns this string). -/
theorem claim_C2_failure_yields_fallback (q : String) (chunks : List Chunk)
    (mode : String) (up : String → Outcome) (err : String)
    (h : up (build_user_message q chunks mode) = Outcome.failure err) :
    generate_answer q chunks mode up = get_fallback_response q (build_context chunks) := by
  unfold generate_answer
  rw [h]

/-- Witness for C2 at a concrete call whose upstream raises. -/
theorem claim_C2_failure_yields_fallback_witness :
    generate_answer "What is ROS 2?" [] "book-wide" (fun _ => Outcome.failure "boom") =
      get_fallback_response "What is ROS 2?" (build_context []) :=
  claim_C2_failure_yields_fallback "What is ROS 2?" [] "book-wide"
    (fun _ => Outcome.failure "boom") "boom" rfl

/-- Claim C5: the strict-grounding provider (modelled from the spec, its code
not being among the source files) propagates an upstream failure to the caller
unchanged: the result is exactly `Except.error` of the failure, never a
fallback string. -/
theorem claim_C5_strict_propagates_failure (q : String) (chunks : List Chunk)
    (mode : String) (up : String → Outcome) (err : String)
    (h : up (build_user_message q chunks mode) = Outcome.failure err) :
    strict_generate_answer q chunks mode up = Except.error err := by
  unfold strict_generate_answer
  rw [h]

/-- Witness for C5 at a concrete call whose upstream fails. -/
theorem claim_C5_strict_propagates_failure_witness :
    strict_generate_answer "What is ROS 2?" [] "book-wide"
        (fun _ => Outcome.failure "rate limit") = Except.error "rate limit" :=
  claim_C5_strict_propagates_failure "What is ROS 2?" [] "book-wide"
    (fun _ => Outcome.failure "rate limit") "rate limit" rfl

/-- Claim C9: in any sequential sequence of `get_service` calls, the
`OpenRouterService` instance is constructed exactly once, from the first
call's api key; every call returns that same instance and the api keys of
the later calls have no effect. -/
theorem claim_C9_singleton_constructed_once (env k0 : Option String)
    (ks : List (Option String)) :
    runCalls env none (k0 :: ks) =
      (List.replicate (ks.length + 1) (OpenRouterService.ofKey k0 env),
       some (OpenRouterService.ofKey k0 env)) := by
  simp [runCalls, get_service, runCalls_some, List.replicate]

/-- Claim C10: two `generate_answer` calls that differ only in `mode` build
the identical user message and return the identical answer-or-fallback
string: `mode` never influences the result. -/
theorem claim_C10_mode_has_no_effect (q : String) (chunks : List Chunk)
    (up : String → Outcome) (m1 m2 : String) :
    build_user_message q chunks m1 = build_user_message q chunks m2 ∧
      generate_answer q chunks m1 up = generate_answer q chunks m2 up :=
  ⟨rfl, rfl⟩

/-- Claim C4: the context assembler emits exactly one labeled block per
fragment, in input order, numbered 1..N, each block carrying the fragment's
chapter identifier, section title and full text (`chunkBlock`), joined by the
fixed separator; the empty fragment list yields the empty string. -/
theorem claim_C4_context_assembler_blocks (chunks : List Chunk) :
    build_context chunks =
        (if chunks.isEmpty then "" else joinSep "\n---\n" (buildParts chunks 1)) ∧
      (buildParts chunks 1).length = chunks.length ∧
      ∀ i : Nat, (buildParts chunks 1)[i]? = (chunks[i]?).map (fun c => chunkBlock (i + 1) c) :=
  ⟨rfl, buildParts_length chunks 1, fun i => buildParts_getElem? chunks 1 i⟩

/-- Claim C6: for every input, including an empty question, an empty fragment
list and fragment records missing metadata keys, context assembly and message
construction are total and produce non-empty instruction text; a missing
section title defaults to "Unknown Section" and a missing chapter identifier
defaults to "?". -/
theorem claim_C6_construction_total_nonempty (q : String) (chunks : List Chunk)
    (mode : String) :
    0 < (build_user_message q chunks mode).length ∧
      0 < agent_instructions.length ∧
      (∀ cid ft, Chunk.sectionTitle ⟨cid, none, ft⟩ = "Unknown Section") ∧
      (∀ st ft, Chunk.chapterId ⟨none, st, ft⟩ = "?") := by
  refine ⟨?_, by decide, fun cid ft => rfl, fun st ft => rfl⟩
  have h10 : ("Question: " : String).length = 10 := rfl
  simp only [build_user_message]
  split
  · rw [strLenAppend, strLenAppend, h10]
    omega
  · rw [strLenAppend, strLenAppend, strLenAppend, strLenAppend, h10]
    omega

/-- Claim C7: with an empty fragment list, `chapter-aware` mode builds exactly
the same user message as `book-wide` mode; the message is the no-context
template, whose fixed tail contains no chapter reference. -/
theorem claim_C7_empty_fragments_mode_equivalent (q : String) :
    build_user_message q [] "chapter-aware" = build_user_message q [] "book-wide" ∧
      build_user_message q [] "chapter-aware" = "Question: " ++ q ++ no_ctx_tail ∧
      strHasSub no_ctx_tail "Chapter" = false := by
  refine ⟨rfl, ?_, by decide⟩
  simp [build_user_message, build_context]

/-- Claim C1: in `chapter-aware` mode with a non-empty fragment list, the
user-message text submitted to the upstream model references the chapter
identifier of the first fragment, whatever the chapters of the remaining
fragments: the text `"Chapter " ++ first.chapterId` occurs in the message. -/
theorem claim_C1_first_fragment_chapter_referenced (q : String) (c : Chunk)
    (rest : List Chunk) :
    strHasSub (build_user_message q (c :: rest) "chapter-aware")
      ("Chapter " ++ c.chapterId) = true := by
  obtain ⟨t, ht⟩ := build_context_cons c rest
  have hne := build_context_cons_ne_empty c rest
  have hmsg : build_user_message q (c :: rest) "chapter-aware" =
      "Question: " ++ q ++ "\n\nContext from textbook:\n" ++ build_context (c :: rest)
        ++ ctx_instructions := by
    simp only [build_user_message]
    rw [if_neg hne]
  have hsp : ("] Chapter " : String) = "] " ++ "Chapter " := by decide
  apply strHasSub_intro _
    ("Question: " ++ q ++ "\n\nContext from textbook:\n" ++ ("[Chunk " ++ (toString 1 ++ "] ")))
    _ (t ++ ctx_instructions)
  rw [hmsg, ht, hsp]
  simp only [strAppendAssoc]

theorem all_takeWhile' (p : Char → Bool) (l : List Char) :
    (l.takeWhile p).all p = true := by
  induction l with
  | nil => rfl
  | cons c cs ih =>
    by_cases h : p c
    · simp [List.takeWhile_cons, h, ih]
    · simp [List.takeWhile_cons, h]

theorem all_reverse' (p : Char → Bool) (l : List Char) :
    l.reverse.all p = l.all p := by
  induction l with
  | nil => rfl
  | cons c cs ih => simp [List.reverse_cons, List.all_append, ih, Bool.and_comm]

theorem rev_decomp (p : Char → Bool) (m : List Char) :
    m = (m.reverse.dropWhile p).reverse ++ (m.reverse.takeWhile p).reverse :=
  calc m = m.reverse.reverse := (List.reverse_reverse m).symm
    _ = (m.reverse.takeWhile p ++ m.reverse.dropWhile p).reverse := by
        rw [List.takeWhile_append_dropWhile]
    _ = (m.reverse.dropWhile p).reverse ++ (m.reverse.takeWhile p).reverse :=
        List.reverse_append _ _

theorem pyStrip_decomp (s : String) :
    ∃ u v : List Char, s.data = u ++ ((pyStrip s).data ++ v) ∧
      u.all pyWs = true ∧ v.all pyWs = true := by
  refine ⟨s.data.takeWhile pyWs,
    ((s.data.dropWhile pyWs).reverse.takeWhile pyWs).reverse, ?_,
    all_takeWhile' pyWs s.data, ?_⟩
  · conv_lhs => rw [← List.takeWhile_append_dropWhile (p := pyWs) (l := s.data)]
    congr 1
    exact rev_decomp pyWs (s.data.dropWhile pyWs)
  · rw [all_reverse']
    exact all_takeWhile' pyWs _

/-- Claim C3: for every question, fragment list and mode, if the upstream
invocation succeeds with text `t`, `generate_answer` returns `t` with only
surrounding whitespace trimmed: the result is `pyStrip t`, and `t` is the
result surrounded by (only) whitespace — no other rewriting occurs. -/
theorem claim_C3_success_only_trims (q : String) (chunks : List Chunk)
    (mode : String) (up : String → Outcome) (t : String)
    (h : up (build_user_message q chunks mode) = Outcome.success t) :
    generate_answer q chunks mode up = pyStrip t ∧
      ∃ u v : List Char, t.data = u ++ ((pyStrip t).data ++ v) ∧
        u.all pyWs = true ∧ v.all pyWs = true := by
  constructor
  · unfold generate_answer
    rw [h]
  · exact pyStrip_decomp t

/-- Witness for C3 at the spec's scenario: upstream succeeds with the
citation sentence surrounded by whitespace. -/
theorem claim_C3_success_only_trims_witness :
    generate_answer "Explain ROS 2" [] "book-wide"
        (fun _ => Outcome.success " ROS 2 uses DDS for communication [Chapter 3]. ") =
      pyStrip " ROS 2 uses DDS for communication [Chapter 3]. " ∧
      ∃ u v : List Char,
        (" ROS 2 uses DDS for communication [Chapter 3]. " : String).data =
          u ++ ((pyStrip " ROS 2 uses DDS for communication [Chapter 3]. ").data ++ v) ∧
        u.all pyWs = true ∧ v.all pyWs = true :=
  claim_C3_success_only_trims "Explain ROS 2" [] "book-wide"
    (fun _ => Outcome.success " ROS 2 uses DDS for communication [Chapter 3]. ")
    " ROS 2 uses DDS for communication [Chapter 3]. " rfl

/-- Claim C8: for the question "What is Physical AI?" with no fragments in
`book-wide` mode, an upstream failure yields the empty-context fallback
string, which contains the phrase inviting the learner to ask about the known
topic areas and contains neither the word "error" nor a stack trace. -/
theorem claim_C8_empty_context_fallback (up : String → Outcome) (err : String)
    (h : up (build_user_message "What is Physical AI?" [] "book-wide") =
      Outcome.failure err) :
    generate_answer "What is Physical AI?" [] "book-wide" up =
        get_fallback_response "What is Physical AI?" "" ∧
      strHasSub (get_fallback_response "What is Physical AI?" "")
        "I can help you understand topics like" = true ∧
      strHasSub (get_fallback_response "What is Physical AI?" "") "error" = false ∧
      strHasSub (get_fallback_response "What is Physical AI?" "") "Traceback" = false := by
  refine ⟨?_, by decide, by decide, by decide⟩
  unfold generate_answer
  rw [h]
  rfl

/-- Witness for C8 at a concrete failing upstream. -/
theorem claim_C8_empty_context_fallback_witness :
    generate_answer "What is Physical AI?" [] "book-wide"
        (fun _ => Outcome.failure "timeout") =
        get_fallback_response "What is Physical AI?" "" ∧
      strHasSub (get_fallback_response "What is Physical AI?" "")
        "I can help you understand topics like" = true ∧
      strHasSub (get_fallback_response "What is Physical AI?" "") "error" = false ∧
      strHasSub (get_fallback_response "What is Physical AI?" "") "Traceback" = false :=
  claim_C8_empty_context_fallback (fun _ => Outcome.failure "timeout") "timeout" rfl

end QAService
